import Mathlib

/-!
# Verification of the gd-tracker adaptive reminder-scheduling core

Shallow embedding of the scheduling pipeline of the gd-tracker repository:

* `supabase/functions/schedule-weekly-reminders/weighted-statistics.ts`
  (`calculateWeightedMedian`, `calculateConfidence`, `filterOutliersByWeight`)
* `supabase/functions/schedule-weekly-reminders/adaptive-lookback.ts`
  (`determineLookbackStrategy`, `fetchReadingsWithContext`, `applyAdaptiveFallback`)
* `supabase/functions/schedule-weekly-reminders/schedule-generator.ts`
  (`generateScheduleForWindow`, `enforceSpacingByConfidence`)
* `supabase/functions/schedule-weekly-reminders/filtering.ts`
  (`detectStatisticalOutliers`)

Conventions of the embedding:

* JavaScript `number` values that carry weights / confidences are modelled as `ℚ`
  (exact arithmetic); minute-of-day and day-of-week values as `ℤ`; absolute
  timestamps (`Date.getTime()`) as `ℤ` epoch milliseconds.
* Database fetches are modelled as pure filters over an explicit list of stored
  rows (`StoredReading`), with the wall-clock instant `new Date()` made an
  explicit parameter `now`.
* The local-civil-time conversion `toZonedTime(_, "Europe/Warsaw")` followed by
  `getDay`/`getHours`/`getMinutes` is modelled as an explicit conversion
  function parameter `toLocal : ℤ → LocalParts`; `fixedOffsetLocal` instantiates
  it with a fixed-offset conversion (exact for instants away from DST changes).
* JavaScript `Array.prototype.sort` (stable since ES2019) is modelled by the
  stable `List.mergeSort`.
-/

namespace GDTracker

/-- Tag `data_quality`  of a weighted reading (`adaptive-lookback.ts`,
`ReadingWithWeight.data_quality : "scheduled_week" | "historical"`). -/
inductive DataQuality
  | scheduled_week
  | historical
deriving DecidableEq, Repr

/-- The three lookback modes (`adaptive-lookback.ts`,
`LookbackStrategy.mode : "bootstrap" | "transition" | "mature"`). -/
inductive Mode
  | bootstrap
  | transition
  | mature
deriving DecidableEq, Repr

/-- Tag `source`  of a schedule candidate (`schedule-generator.ts`,
`ScheduleCandidate.source : "history" | "default_window"`). -/
inductive Source
  | history
  | default_window
deriving DecidableEq, Repr

/-- Record `LookbackStrategy` from `adaptive-lookback.ts`. -/
structure LookbackStrategy where
  mode : Mode
  scheduledWeeksCount : ℕ
  useScheduledWeeks : Bool
  useHistoricalWeeks : Bool
  historicalLookbackDays : ℤ
  historicalWeight : ℚ
deriving DecidableEq, Repr

/-- Record `ReadingWithWeight` from `adaptive-lookback.ts`. -/
structure ReadingWithWeight where
  user_id : String
  measurement_type : String
  day_of_week : ℤ
  minute_of_day : ℤ
  date : String
  data_quality : DataQuality
  weight : ℚ
deriving DecidableEq, Repr

/-- Record `MealWindow` from `filtering.ts`.  The `created_at`/`updated_at` columns are
never read by the scheduling logic and are omitted. -/
structure MealWindow where
  id : String
  user_id : String
  day_of_week : ℤ
  measurement_type : String
  meal_number : Option ℤ
  time_start : String
  time_end : String
deriving DecidableEq, Repr

/-- Model of `String.prototype.split(sep)` over the character list: cut the
list at every separator, keeping empty segments, like the JavaScript split. -/
def splitSegments (sep : Char) : List Char → List Char → List (List Char)
  | [], acc => [acc.reverse]
  | c :: cs, acc =>
    if c = sep then acc.reverse :: splitSegments sep cs []
    else splitSegments sep cs (c :: acc)

/-- Model of `Number(segment)` on a digit string: accumulate decimal digits;
`none` for a non-digit character (where JavaScript would produce `NaN`). -/
def parseDigitsAux : List Char → ℕ → Option ℕ
  | [], acc => some acc
  | c :: cs, acc =>
    if c.isDigit then parseDigitsAux cs (acc * 10 + (c.toNat - 48)) else none

/-- Function `timeToMinutes` (duplicated in `filtering.ts` and
`schedule-generator.ts`): `timeStr.split(":").map(Number)`, then
`hours * 60 + minutes`.  The split and the numeric parse are modelled over the
character list; a non-numeric segment is mapped to `0` here where JavaScript
would produce `NaN` (the stored format is always `HH:MM:SS`). -/
def timeToMinutes (timeStr : String) : ℤ :=
  let segs := (splitSegments ':' timeStr.toList []).map
    (fun seg => (((parseDigitsAux seg 0).getD 0 : ℕ) : ℤ))
  segs.getD 0 0 * 60 + segs.getD 1 0

/-- Model of `Math.round` on an exact rational: round half toward positive infinity. -/
def jsRound (x : ℚ) : ℤ := ⌊x + 1/2⌋

/-! ## weighted-statistics.ts -/

/-- The accumulation loop of `calculateWeightedMedian`: walk the sorted list,
adding each weight to the running `cumulativeWeight`, and return the
`minute_of_day` of the first element at which the cumulative weight reaches
`targetWeight`; `none` if the loop falls through. -/
def cwmScan (targetWeight : ℚ) : List ReadingWithWeight → ℚ → Option ℤ
  | [], _ => none
  | r :: rest, cumulativeWeight =>
    let cw := cumulativeWeight + r.weight
    if targetWeight ≤ cw then some r.minute_of_day else cwmScan targetWeight rest cw

/-- Function `calculateWeightedMedian` from `weighted-statistics.ts`: `0` for an empty
list; otherwise sort by `minute_of_day` (stably), accumulate weights, and
return the `minute_of_day` of the first element whose cumulative weight is
`≥ totalWeight / 2`.  The final `match` arm is the source's unreachable
fallback `sorted[Math.floor(sorted.length / 2)].minute_of_day`. -/
def calculateWeightedMedian (readings : List ReadingWithWeight) : ℤ :=
  if readings.length = 0 then 0
  else
    let sorted := readings.mergeSort (fun a b => decide (a.minute_of_day ≤ b.minute_of_day))
    let totalWeight := (sorted.map (fun r => r.weight)).sum
    let targetWeight := totalWeight / 2
    match cwmScan targetWeight sorted 0 with
    | some m => m
    | none =>
      match sorted[sorted.length / 2]? with
      | some r => r.minute_of_day
      | none => 0

/-- Function `calculateConfidence` from `weighted-statistics.ts`.  Decimal literals of
the source are written as exact rationals: `0.5 = 1/2`, `0.7 = 7/10`,
`0.2 = 1/5`, `0.04 = 1/25`, `0.1 = 1/10`, `0.02 = 1/50`. -/
def calculateConfidence (readings : List ReadingWithWeight)
    (strategy : LookbackStrategy) : ℚ :=
  if readings.length < 3 then 1/2
  else
    let scheduledReadings := readings.filter (fun r => decide (r.data_quality = .scheduled_week))
    let historicalReadings := readings.filter (fun r => decide (r.data_quality = .historical))
    let base : ℚ := 7/10
    let scheduledBonus := min (1/5 : ℚ) ((scheduledReadings.length : ℚ) * (1/25))
    let historicalBonus :=
      min (1/10 : ℚ) ((historicalReadings.length : ℚ) * (1/50) * strategy.historicalWeight)
    let scheduledRatio : ℚ :=
      if 0 < readings.length then (scheduledReadings.length : ℚ) / (readings.length : ℚ) else 0
    min 1 (base + scheduledBonus + historicalBonus + scheduledRatio * (1/10))

/-- The survivor test `dev ≤ threshold * (stdDev || 1)` shared by
`filterOutliersByWeight` and `detectStatisticalOutliers`, with
`stdDev = Math.sqrt(variance)`.  Encoded without square roots: `stdDev = 0`
iff `variance = 0`, and for `0 ≤ dev`, `0 ≤ threshold` the comparison
`dev ≤ threshold * √variance` is equivalent to
`dev ^ 2 ≤ threshold ^ 2 * variance`. -/
def withinStdDevThreshold (dev threshold variance : ℚ) : Bool :=
  if variance = 0 then decide (dev ≤ threshold * 1)
  else decide (dev ^ 2 ≤ threshold ^ 2 * variance)

/-- The plain (unweighted) median of a list of values, as computed inline by
both `filterOutliersByWeight` and `detectStatisticalOutliers`: sort ascending,
then take the middle element, or the mean of the two middle elements when the
length is even. -/
def listMedian (values : List ℚ) : ℚ :=
  let sorted := values.mergeSort (fun a b => decide (a ≤ b))
  let mid := sorted.length / 2
  if sorted.length % 2 = 0 then (sorted.getD (mid - 1) 0 + sorted.getD mid 0) / 2
  else sorted.getD mid 0

/-- Function `filterOutliersByWeight` from `weighted-statistics.ts`: below 3 readings
pass through; otherwise drop every reading whose `minute_of_day` deviates from
the unweighted median by more than `threshold` standard deviations (variance
taken as the mean squared deviation from the median). -/
def filterOutliersByWeight (readings : List ReadingWithWeight)
    (threshold : ℚ := 2) : List ReadingWithWeight :=
  if readings.length < 3 then readings
  else
    let values := readings.map (fun r => (r.minute_of_day : ℚ))
    let median := listMedian values
    let variance := ((values.map (fun v => (v - median) ^ 2)).sum) / (values.length : ℚ)
    readings.filter (fun r =>
      withinStdDevThreshold |(r.minute_of_day : ℚ) - median| threshold variance)

/-! ## filtering.ts -/

/-- Function `detectStatisticalOutliers` from `filtering.ts`: the same
median/standard-deviation survivor test applied directly to a list of raw
minute values (the source divides by `stdDev || 1` instead of multiplying; the
two tests are equivalent). -/
def detectStatisticalOutliers (minutesOfDay : List ℚ)
    (threshold : ℚ := 2) : List ℚ :=
  if minutesOfDay.length < 3 then minutesOfDay
  else
    let medianValue := listMedian minutesOfDay
    let variance :=
      ((minutesOfDay.map (fun m => (m - medianValue) ^ 2)).sum) / (minutesOfDay.length : ℚ)
    minutesOfDay.filter (fun m =>
      withinStdDevThreshold |m - medianValue| threshold variance)

/-! ## adaptive-lookback.ts -/

/-- Function `determineLookbackStrategy` from `adaptive-lookback.ts`, with the result of
the `count_scheduled_weeks` RPC passed in as `scheduledWeeks` (the source wraps
the database call and falls back to `0` on error; the classification itself is
the pure function below). -/
def determineLookbackStrategy (scheduledWeeks : ℕ) : LookbackStrategy :=
  if scheduledWeeks = 0 then
    { mode := .bootstrap
      scheduledWeeksCount := 0
      useScheduledWeeks := false
      useHistoricalWeeks := true
      historicalLookbackDays := 60
      historicalWeight := 1 }
  else if scheduledWeeks < 4 then
    { mode := .transition
      scheduledWeeksCount := scheduledWeeks
      useScheduledWeeks := true
      useHistoricalWeeks := true
      historicalLookbackDays := 60 - (scheduledWeeks : ℤ) * 7
      historicalWeight := max (1/10) (1 - (scheduledWeeks : ℚ) * (3/10)) }
  else
    { mode := .mature
      scheduledWeeksCount := scheduledWeeks
      useScheduledWeeks := true
      useHistoricalWeeks := false
      historicalLookbackDays := 0
      historicalWeight := 0 }

/-- One row of the `glucose_readings` table as seen by the scheduler
(`measured_at` in epoch milliseconds, `reading_context` nullable). -/
structure StoredReading where
  user_id : String
  measured_at : ℤ
  measurement_type : String
  reading_context : Option String
deriving DecidableEq, Repr

def msPerMinute : ℤ := 60000

def msPerDay : ℤ := 86400000

/-- Local-civil-time parts of an instant, as produced by
`toZonedTime(utcDate, "Europe/Warsaw")` plus `getDay()`,
`getHours() * 60 + getMinutes()` and the date string. -/
structure LocalParts where
  day_of_week : ℤ
  minute_of_day : ℤ
  date : String
deriving DecidableEq, Repr

/-- A concrete local-time conversion with a constant UTC offset (in minutes).
Models `toZonedTime(_, "Europe/Warsaw")` exactly for instants away from DST
transitions (Warsaw standard time is UTC+60 minutes).  `1970-01-01` was a
Thursday, hence the `+ 4` in the day-of-week computation. -/
def fixedOffsetLocal (offsetMinutes : ℤ) (t : ℤ) : LocalParts :=
  let localMs := t + offsetMinutes * msPerMinute
  let daysSinceEpoch := localMs / msPerDay
  { day_of_week := (daysSinceEpoch + 4) % 7
    minute_of_day := localMs % msPerDay / msPerMinute
    date := "" }

/-- The query of the inner `fetchReadings` helper of `fetchReadingsWithContext`:
rows of this user, within the lookback bound when one is given
(`measured_at ≥ now − daysLookback` days), and filtered on `reading_context`:
`eq 'scheduled_prompt'` for the scheduled fetch, `neq 'scheduled_prompt'` for
the historical fetch.  PostgREST `neq` translates to SQL `<>`, which excludes
`NULL` contexts as well. -/
def fetchReadings (store : List StoredReading) (userId : String) (now : ℤ)
    (daysLookback : Option ℤ) (quality : DataQuality) : List StoredReading :=
  store.filter (fun r =>
    decide (r.user_id = userId) &&
    (match daysLookback with
     | some d => decide (now - d * msPerDay ≤ r.measured_at)
     | none => true) &&
    (match quality with
     | .scheduled_week => decide (r.reading_context = some "scheduled_prompt")
     | .historical =>
       match r.reading_context with
       | some c => decide (c ≠ "scheduled_prompt")
       | none => false))

/-- The per-row transformation of `fetchReadingsWithContext` and
`applyAdaptiveFallback`: convert `measured_at` to local parts and attach the
quality tag and weight. -/
def toReadingWithWeight (toLocal : ℤ → LocalParts) (userId : String)
    (quality : DataQuality) (weight : ℚ) (r : StoredReading) : ReadingWithWeight :=
  let parts := toLocal r.measured_at
  { user_id := userId
    measurement_type := r.measurement_type
    day_of_week := parts.day_of_week
    minute_of_day := parts.minute_of_day
    date := parts.date
    data_quality := quality
    weight := weight }

/-- Function `fetchReadingsWithContext` from `adaptive-lookback.ts`: scheduled-prompt
rows of the last 90 days with weight `1.0` when `useScheduledWeeks`, then
non-scheduled rows of the strategy's lookback window with weight
`historicalWeight` when `useHistoricalWeeks` and the lookback is positive;
every row converted to local `(day_of_week, minute_of_day)`. -/
def fetchReadingsWithContext (toLocal : ℤ → LocalParts) (store : List StoredReading)
    (userId : String) (now : ℤ) (strategy : LookbackStrategy) : List ReadingWithWeight :=
  let scheduledData :=
    if strategy.useScheduledWeeks then
      (fetchReadings store userId now (some 90) .scheduled_week).map
        (toReadingWithWeight toLocal userId .scheduled_week 1)
    else []
  let historicalData :=
    if strategy.useHistoricalWeeks && decide (0 < strategy.historicalLookbackDays) then
      (fetchReadings store userId now (some strategy.historicalLookbackDays) .historical).map
        (toReadingWithWeight toLocal userId .historical strategy.historicalWeight)
    else []
  scheduledData ++ historicalData

/-- Function `applyAdaptiveFallback` from `adaptive-lookback.ts`: in `mature` mode with
fewer than 3 readings, append this user's rows of the window's measurement
type from the last 30 days (`new Date()` minus 30 days, modelled by `now`),
each tagged `historical` with weight `0.5`.  Note the query filters only on
`user_id`, `measurement_type` and `measured_at` — rows with
`reading_context = 'scheduled_prompt'` are fetched as well. -/
def applyAdaptiveFallback (toLocal : ℤ → LocalParts) (store : List StoredReading)
    (now : ℤ) (readings : List ReadingWithWeight) (strategy : LookbackStrategy)
    (userId : String) (window : MealWindow) : List ReadingWithWeight :=
  if strategy.mode = Mode.mature ∧ readings.length < 3 then
    let rows := store.filter (fun r =>
      decide (r.user_id = userId) &&
      decide (r.measurement_type = window.measurement_type) &&
      decide (now - 30 * msPerDay ≤ r.measured_at))
    readings ++ rows.map (toReadingWithWeight toLocal userId .historical (1/2))
  else readings

/-! ## schedule-generator.ts -/

/-- Record `ScheduleCandidate` from `schedule-generator.ts`; `scheduled_at` in epoch
milliseconds, the `data_quality_breakdown` object flattened into the two count
fields. -/
structure ScheduleCandidate where
  user_id : String
  meal_window_id : String
  measurement_type : String
  day_of_week : ℤ
  minute_of_day : ℤ
  scheduled_at : ℤ
  confidence : ℚ
  source : Source
  readings_count : ℕ
  scheduled_count : ℕ
  historical_count : ℕ
deriving DecidableEq, Repr

/-- Function `generateScheduleForWindow` from `schedule-generator.ts`.  `mondayBase` is
the epoch instant of the target week's local Monday 00:00 (the
`toZonedTime(targetMonday)`/`fromZonedTime` round trip under a constant
offset); `Math.round(median)` is the identity here because the embedded median
is integral. -/
def generateScheduleForWindow (toLocal : ℤ → LocalParts) (store : List StoredReading)
    (now : ℤ) (window : MealWindow) (allReadings : List ReadingWithWeight)
    (strategy : LookbackStrategy) (mondayBase : ℤ) : ScheduleCandidate :=
  let startMinute := timeToMinutes window.time_start
  let endMinute := timeToMinutes window.time_end
  let windowReadings₁ := allReadings.filter (fun r =>
    decide (r.measurement_type = window.measurement_type) &&
    decide (r.day_of_week = window.day_of_week) &&
    decide (startMinute ≤ r.minute_of_day) &&
    decide (r.minute_of_day ≤ endMinute))
  let windowReadings₂ := filterOutliersByWeight windowReadings₁
  let windowReadings :=
    applyAdaptiveFallback toLocal store now windowReadings₂ strategy window.user_id window
  let result : ℤ × ℚ × Source :=
    if 3 ≤ windowReadings.length then
      (calculateWeightedMedian windowReadings + 5,
       calculateConfidence windowReadings strategy,
       Source.history)
    else
      let defaultTarget :=
        if window.measurement_type = "fasting" then
          jsRound (((startMinute + endMinute : ℤ) : ℚ) / 2)
        else endMinute - 30
      (max startMinute (min endMinute defaultTarget), 1/2, Source.default_window)
  let targetMinute := result.1
  let daysToAdd : ℤ := if window.day_of_week = 0 then 6 else window.day_of_week - 1
  { user_id := window.user_id
    meal_window_id := window.id
    measurement_type := window.measurement_type
    day_of_week := window.day_of_week
    minute_of_day := targetMinute
    scheduled_at := mondayBase + daysToAdd * msPerDay + targetMinute * msPerMinute
    confidence := result.2.1
    source := result.2.2
    readings_count := windowReadings.length
    scheduled_count :=
      (windowReadings.filter (fun r => decide (r.data_quality = .scheduled_week))).length
    historical_count :=
      (windowReadings.filter (fun r => decide (r.data_quality = .historical))).length }

/-- Model of `Math.abs(cTime - bestTime) / (1000 * 60)`: the absolute distance between
two epoch-millisecond instants, in minutes. -/
def diffMinutes (a b : ℤ) : ℚ := |((a - b : ℤ) : ℚ)| / 60000

/-- The greedy `while` loop of `enforceSpacingByConfidence`: accept the head of
the (confidence-sorted) pool, then drop every remaining candidate closer than
`minSpacingMinutes` to it, and recurse on the filtered pool. -/
def spacingLoop (minSpacingMinutes : ℚ) : List ScheduleCandidate → List ScheduleCandidate
  | [] => []
  | best :: pool =>
    best :: spacingLoop minSpacingMinutes
      (pool.filter (fun c =>
        decide (minSpacingMinutes ≤ diffMinutes c.scheduled_at best.scheduled_at)))
termination_by l => l.length
decreasing_by
  simp only [List.length_cons]
  exact Nat.lt_succ_of_le (List.length_filter_le _ _)

/-- Function `enforceSpacingByConfidence` from `schedule-generator.ts`: sort the pool by
confidence descending (stably, like the ES2019 `sort`), run the greedy
accept/discard loop, re-sort the accepted set chronologically.  (The source
also computes an unused time-sorted copy first; it has no effect.) -/
def enforceSpacingByConfidence (candidates : List ScheduleCandidate)
    (minSpacingMinutes : ℚ) : List ScheduleCandidate :=
  if candidates.length = 0 then []
  else
    let pool := candidates.mergeSort (fun a b => decide (b.confidence ≤ a.confidence))
    let finalSchedules := spacingLoop minSpacingMinutes pool
    finalSchedules.mergeSort (fun a b => decide (a.scheduled_at ≤ b.scheduled_at))

/-! ## index.ts (per-user orchestration) -/

/-- The per-user pipeline of `schedule-weekly-reminders/index.ts`: classify the
user from the scheduled-weeks count, fetch the weighted reading set, generate
one candidate per meal window, and resolve conflicts (the source calls
`enforceSpacingByConfidence(candidates, 90)`). -/
def runPipelineForUser (toLocal : ℤ → LocalParts) (store : List StoredReading)
    (userId : String) (now : ℤ) (scheduledWeeks : ℕ) (windows : List MealWindow)
    (mondayBase : ℤ) (minSpacingMinutes : ℚ) : List ScheduleCandidate :=
  let strategy := determineLookbackStrategy scheduledWeeks
  let allReadings := fetchReadingsWithContext toLocal store userId now strategy
  let candidates := windows.map (fun w =>
    generateScheduleForWindow toLocal store now w allReadings strategy mondayBase)
  enforceSpacingByConfidence candidates minSpacingMinutes

/-- The reading set `generateScheduleForWindow` actually schedules from:
window-filtered readings, after outlier removal and the adaptive fallback
(steps 1–3 of the source function, before the decision step). -/
def windowFinalReadings (toLocal : ℤ → LocalParts) (store : List StoredReading) (now : ℤ)
    (window : MealWindow) (allReadings : List ReadingWithWeight)
    (strategy : LookbackStrategy) : List ReadingWithWeight :=
  applyAdaptiveFallback toLocal store now
    (filterOutliersByWeight (allReadings.filter (fun r =>
      decide (r.measurement_type = window.measurement_type) &&
      decide (r.day_of_week = window.day_of_week) &&
      decide (timeToMinutes window.time_start ≤ r.minute_of_day) &&
      decide (r.minute_of_day ≤ timeToMinutes window.time_end))))
    strategy window.user_id window

/-! ## Comparison definition written from the specification's words -/

/-- The adaptive-fallback append set as the specification describes it: only
the organic (non-scheduled-prompt) rows of the given measurement type within
the 30-day window.  Written from the spec's words, for comparison with the
source's `applyAdaptiveFallback` query, which has no `reading_context`
filter. -/
def organicFallbackRows (store : List StoredReading) (userId : String) (now : ℤ)
    (measurementType : String) : List StoredReading :=
  store.filter (fun r =>
    decide (r.user_id = userId) &&
    decide (r.measurement_type = measurementType) &&
    decide (now - 30 * msPerDay ≤ r.measured_at) &&
    !(decide (r.reading_context = some "scheduled_prompt")))

/-! ## Concrete test vectors -/

/-- Warsaw standard time (UTC+1) as a concrete local-conversion instance. -/
def warsawWinterLocal : ℤ → LocalParts := fixedOffsetLocal 60

/-- Candidate at Monday 08:00 with confidence 0.9 (spec test vector). -/
def cand0800 : ScheduleCandidate :=
  { user_id := "u1", meal_window_id := "w1", measurement_type := "fasting",
    day_of_week := 1, minute_of_day := 480, scheduled_at := 480 * 60000,
    confidence := 9/10, source := .history, readings_count := 3,
    scheduled_count := 3, historical_count := 0 }

/-- Candidate at Monday 08:30 with confidence 0.5 (spec test vector). -/
def cand0830 : ScheduleCandidate :=
  { user_id := "u1", meal_window_id := "w2", measurement_type := "fasting",
    day_of_week := 1, minute_of_day := 510, scheduled_at := 510 * 60000,
    confidence := 1/2, source := .history, readings_count := 3,
    scheduled_count := 3, historical_count := 0 }

/-- Candidate at Monday 10:00 with confidence 0.8 (spec test vector). -/
def cand1000 : ScheduleCandidate :=
  { user_id := "u1", meal_window_id := "w3", measurement_type := "fasting",
    day_of_week := 1, minute_of_day := 600, scheduled_at := 600 * 60000,
    confidence := 4/5, source := .history, readings_count := 3,
    scheduled_count := 3, historical_count := 0 }

/-- Candidate at Tuesday 08:30 with confidence 0.8: 1470 minutes after Monday
08:00 in absolute time, but only 30 minutes away in time-of-day. -/
def candTue0830 : ScheduleCandidate :=
  { user_id := "u1", meal_window_id := "w4", measurement_type := "fasting",
    day_of_week := 2, minute_of_day := 510, scheduled_at := 1950 * 60000,
    confidence := 4/5, source := .history, readings_count := 3,
    scheduled_count := 3, historical_count := 0 }

/-- Weighted reading at minute 420 with weight 0.4 (the repository's own
`calculateWeightedMedian` test vector). -/
def exReading420 : ReadingWithWeight :=
  { user_id := "u1", measurement_type := "fasting", day_of_week := 1,
    minute_of_day := 420, date := "2023-01-01", data_quality := .historical,
    weight := 2/5 }

/-- Weighted reading at minute 480 with weight 1.0. -/
def exReading480 : ReadingWithWeight :=
  { user_id := "u1", measurement_type := "fasting", day_of_week := 1,
    minute_of_day := 480, date := "2023-01-01", data_quality := .scheduled_week,
    weight := 1 }

/-- Weighted reading at minute 540 with weight 1.0. -/
def exReading540 : ReadingWithWeight :=
  { user_id := "u1", measurement_type := "fasting", day_of_week := 1,
    minute_of_day := 540, date := "2023-01-01", data_quality := .scheduled_week,
    weight := 1 }

/-- The reading list `[(420, 0.4), (480, 1.0), (540, 1.0)]` of the weighted
median test. -/
def exMedianReadings : List ReadingWithWeight := [exReading420, exReading480, exReading540]

/-- A meal window Monday 07:00–08:00 (minutes 420–480). -/
def exWindowEdge : MealWindow :=
  { id := "w-edge", user_id := "u1", day_of_week := 1, measurement_type := "fasting",
    meal_number := none, time_start := "07:00:00", time_end := "08:00:00" }

/-- Three weight-1 scheduled readings clustered at the very end of
`exWindowEdge` (minutes 478, 479, 480). -/
def exEdgeReadings : List ReadingWithWeight :=
  [ { user_id := "u1", measurement_type := "fasting", day_of_week := 1,
      minute_of_day := 478, date := "2026-01-05", data_quality := .scheduled_week,
      weight := 1 },
    { user_id := "u1", measurement_type := "fasting", day_of_week := 1,
      minute_of_day := 479, date := "2026-01-05", data_quality := .scheduled_week,
      weight := 1 },
    { user_id := "u1", measurement_type := "fasting", day_of_week := 1,
      minute_of_day := 480, date := "2026-01-05", data_quality := .scheduled_week,
      weight := 1 } ]

/-- A stored row whose `reading_context` is `'scheduled_prompt'`: the adaptive
fallback of the source fetches it even though the spec asks for organic rows
only. -/
def fallbackStore : List StoredReading :=
  [ { user_id := "u1", measured_at := 0, measurement_type := "fasting",
      reading_context := some "scheduled_prompt" } ]

/-- Meal window used with `fallbackStore` in the adaptive-fallback analysis. -/
def fallbackWindow : MealWindow :=
  { id := "w-fb", user_id := "u1", day_of_week := 1, measurement_type := "fasting",
    meal_number := none, time_start := "07:00:00", time_end := "08:00:00" }

/-- Three organic fasting rows on local day 60 (a Monday under
`warsawWinterLocal`) at minutes 478, 479 and 480. -/
def pipelineStore : List StoredReading :=
  [ { user_id := "u1", measured_at := 60 * msPerDay + 478 * msPerMinute - 60 * msPerMinute,
      measurement_type := "fasting", reading_context := some "manual" },
    { user_id := "u1", measured_at := 60 * msPerDay + 479 * msPerMinute - 60 * msPerMinute,
      measurement_type := "fasting", reading_context := some "manual" },
    { user_id := "u1", measured_at := 60 * msPerDay + 480 * msPerMinute - 60 * msPerMinute,
      measurement_type := "fasting", reading_context := some "manual" } ]

/-- Meal window Monday 07:00–08:30 used in the pipeline determinism analysis. -/
def pipelineWindow : MealWindow :=
  { id := "w-pl", user_id := "u1", day_of_week := 1, measurement_type := "fasting",
    meal_number := none, time_start := "07:00:00", time_end := "08:30:00" }

/-! ## Lemmas about the greedy spacing loop -/

lemma spacingLoop_nil (m : ℚ) : spacingLoop m [] = [] := by
  rw [spacingLoop]

lemma spacingLoop_cons (m : ℚ) (best : ScheduleCandidate) (pool : List ScheduleCandidate) :
    spacingLoop m (best :: pool) =
      best :: spacingLoop m (pool.filter (fun c =>
        decide (m ≤ diffMinutes c.scheduled_at best.scheduled_at))) := by
  rw [spacingLoop]

lemma diffMinutes_comm (a b : ℤ) : diffMinutes a b = diffMinutes b a := by
  unfold diffMinutes
  rw [show ((a - b : ℤ) : ℚ) = -((b - a : ℤ) : ℚ) by push_cast; ring, abs_neg]

lemma spacingLoop_sublist (m : ℚ) : ∀ l : List ScheduleCandidate, (spacingLoop m l).Sublist l
  | [] => by
    rw [spacingLoop_nil]
  | best :: pool => by
    rw [spacingLoop_cons]
    exact List.Sublist.cons₂ _ ((spacingLoop_sublist m _).trans (List.filter_sublist _))
termination_by l => l.length
decreasing_by
  simp only [List.length_cons]
  exact Nat.lt_succ_of_le (List.length_filter_le _ _)

lemma spacingLoop_pairwise (m : ℚ) : ∀ l : List ScheduleCandidate,
    (spacingLoop m l).Pairwise
      (fun a b => m ≤ diffMinutes a.scheduled_at b.scheduled_at)
  | [] => by
    rw [spacingLoop_nil]; exact List.Pairwise.nil
  | best :: pool => by
    rw [spacingLoop_cons]
    refine List.Pairwise.cons ?_ (spacingLoop_pairwise m _)
    intro x hx
    have hx₂ := (spacingLoop_sublist m _).subset hx
    rw [List.mem_filter] at hx₂
    have hle := of_decide_eq_true hx₂.2
    rwa [diffMinutes_comm] at hle
termination_by l => l.length
decreasing_by
  simp only [List.length_cons]
  exact Nat.lt_succ_of_le (List.length_filter_le _ _)

lemma spacingLoop_greedy (m : ℚ) : ∀ l : List ScheduleCandidate,
    l.Pairwise (fun a b => b.confidence ≤ a.confidence) →
    ∀ c ∈ l, c ∈ spacingLoop m l ∨
      ∃ a ∈ spacingLoop m l,
        diffMinutes c.scheduled_at a.scheduled_at < m ∧ c.confidence ≤ a.confidence
  | [] => by
    intro _ c hc
    cases hc
  | best :: pool => by
    intro hsorted c hc
    rw [spacingLoop_cons]
    rcases List.mem_cons.mp hc with rfl | hcpool
    · exact Or.inl (List.mem_cons_self _ _)
    · have hconf : c.confidence ≤ best.confidence :=
        (List.pairwise_cons.mp hsorted).1 c hcpool
      by_cases hd : m ≤ diffMinutes c.scheduled_at best.scheduled_at
      · have hcf : c ∈ pool.filter (fun x =>
            decide (m ≤ diffMinutes x.scheduled_at best.scheduled_at)) :=
          List.mem_filter.mpr ⟨hcpool, decide_eq_true hd⟩
        have hps : (pool.filter (fun x =>
            decide (m ≤ diffMinutes x.scheduled_at best.scheduled_at))).Pairwise
            (fun a b => b.confidence ≤ a.confidence) :=
          List.Pairwise.sublist (List.filter_sublist _) (List.pairwise_cons.mp hsorted).2
        rcases spacingLoop_greedy m _ hps c hcf with hmem | ⟨a, ha, hda, hca⟩
        · exact Or.inl (List.mem_cons_of_mem _ hmem)
        · exact Or.inr ⟨a, List.mem_cons_of_mem _ ha, hda, hca⟩
      · push_neg at hd
        exact Or.inr ⟨best, List.mem_cons_self _ _, hd, hconf⟩
termination_by l => l.length
decreasing_by
  simp only [List.length_cons]
  exact Nat.lt_succ_of_le (List.length_filter_le _ _)

/-! ## C1 -/

/-- C1: `enforceSpacingByConfidence` implements greedy-by-confidence selection.
Its output is a sub-multiset of the input candidates, sorted chronologically;
every input candidate is either accepted, or lies strictly within
`minSpacingMinutes` of an accepted candidate whose confidence is at least its
own; and on the three candidates at 08:00 (confidence 0.9), 08:30 (0.5) and
10:00 (0.8) with `minSpacingMinutes = 90` the result is exactly the 08:00 and
10:00 candidates. -/
theorem enforceSpacingByConfidence_greedy :
    enforceSpacingByConfidence [cand0800, cand0830, cand1000] 90 = [cand0800, cand1000] ∧
    (∀ (candidates : List ScheduleCandidate) (m : ℚ),
      (enforceSpacingByConfidence candidates m).Pairwise
        (fun a b => a.scheduled_at ≤ b.scheduled_at)) ∧
    (∀ (candidates : List ScheduleCandidate) (m : ℚ),
      (enforceSpacingByConfidence candidates m).Subperm candidates) ∧
    (∀ (candidates : List ScheduleCandidate) (m : ℚ),
      ∀ c ∈ candidates,
        c ∈ enforceSpacingByConfidence candidates m ∨
          ∃ a ∈ enforceSpacingByConfidence candidates m,
            diffMinutes c.scheduled_at a.scheduled_at < m ∧
              c.confidence ≤ a.confidence) := by
  refine ⟨?_, ?_, ?_, ?_⟩
  · norm_num [enforceSpacingByConfidence, List.mergeSort, spacingLoop_cons, spacingLoop_nil,
      cand0800, cand0830, cand1000, diffMinutes]
  · intro cs m
    unfold enforceSpacingByConfidence
    split
    · exact List.Pairwise.nil
    · refine List.Pairwise.imp (fun h => of_decide_eq_true h) (List.sorted_mergeSort ?_ ?_ _)
      · intro a b c hab hbc
        exact decide_eq_true (le_trans (of_decide_eq_true hab) (of_decide_eq_true hbc))
      · intro a b
        rcases le_total a.scheduled_at b.scheduled_at with h | h
        · simp [h]
        · simp [h]
  · intro cs m
    unfold enforceSpacingByConfidence
    split
    · exact List.nil_subperm
    · refine ((List.mergeSort_perm _ _).subperm).trans
        (((spacingLoop_sublist m _).subperm).trans ((List.mergeSort_perm cs _).subperm))
  · intro cs m c hc
    unfold enforceSpacingByConfidence
    split
    · rename_i hlen
      rw [List.length_eq_zero] at hlen
      subst hlen
      cases hc
    · have hsorted : (cs.mergeSort (fun a b => decide (b.confidence ≤ a.confidence))).Pairwise
          (fun a b => b.confidence ≤ a.confidence) := by
        refine List.Pairwise.imp (fun h => of_decide_eq_true h) (List.sorted_mergeSort ?_ ?_ _)
        · intro a b c hab hbc
          exact decide_eq_true (le_trans (of_decide_eq_true hbc) (of_decide_eq_true hab))
        · intro a b
          rcases le_total a.confidence b.confidence with h | h
          · simp [h]
          · simp [h]
      have hcpool : c ∈ cs.mergeSort (fun a b => decide (b.confidence ≤ a.confidence)) :=
        List.mem_mergeSort.mpr hc
      rcases spacingLoop_greedy m _ hsorted c hcpool with hmem | ⟨a, ha, hda, hca⟩
      · exact Or.inl (List.mem_mergeSort.mpr hmem)
      · exact Or.inr ⟨a, List.mem_mergeSort.mpr ha, hda, hca⟩

/-- Witness for C1: the 08:30 candidate is an input candidate, so it is either
accepted or conflicts with an accepted candidate of confidence at least 0.5. -/
theorem enforceSpacingByConfidence_greedy_witness :
    cand0830 ∈ enforceSpacingByConfidence [cand0800, cand0830, cand1000] 90 ∨
      ∃ a ∈ enforceSpacingByConfidence [cand0800, cand0830, cand1000] 90,
        diffMinutes cand0830.scheduled_at a.scheduled_at < 90 ∧
          cand0830.confidence ≤ a.confidence :=
  enforceSpacingByConfidence_greedy.2.2.2 [cand0800, cand0830, cand1000] 90 cand0830
    (List.mem_cons_of_mem _ (List.mem_cons_self _ _))

/-! ## C2 -/

/-- C2 is false as stated: the spacing guarantee of
`enforceSpacingByConfidence` is measured in absolute time, not in time-of-day.
The accepted Monday 08:00 and Tuesday 08:30 candidates are 1470 minutes apart
in absolute time (so both survive `minSpacingMinutes = 90`) yet only 30
minutes apart in minute-of-day. -/
theorem enforceSpacing_timeOfDay_spacing_false :
    enforceSpacingByConfidence [cand0800, candTue0830] 90 = [cand0800, candTue0830] ∧
    cand0800 ≠ candTue0830 ∧
    |cand0800.minute_of_day - candTue0830.minute_of_day| < 90 := by
  refine ⟨?_, by norm_num [cand0800, candTue0830], by norm_num [cand0800, candTue0830]⟩
  norm_num [enforceSpacingByConfidence, List.mergeSort, spacingLoop_cons, spacingLoop_nil,
    cand0800, candTue0830, diffMinutes]

/-- C2 (amended): any two schedules in the output of
`enforceSpacingByConfidence` are at least `minSpacingMinutes` apart in
absolute time (`scheduled_at` distance), for every candidate list and every
spacing. -/
theorem enforceSpacing_absoluteTime_spacing (candidates : List ScheduleCandidate) (m : ℚ) :
    (enforceSpacingByConfidence candidates m).Pairwise
      (fun a b => m ≤ diffMinutes a.scheduled_at b.scheduled_at) := by
  unfold enforceSpacingByConfidence
  split
  · exact List.Pairwise.nil
  · have hsym : ∀ {x y : ScheduleCandidate},
        m ≤ diffMinutes x.scheduled_at y.scheduled_at →
        m ≤ diffMinutes y.scheduled_at x.scheduled_at := by
      intro x y h
      rwa [diffMinutes_comm]
    exact ((List.mergeSort_perm _ _).pairwise_iff hsym).mpr (spacingLoop_pairwise m _)

/-! ## C6 -/

/-- C6: `determineLookbackStrategy` is exactly the three-state classification on
the scheduled-weeks count: 0 → bootstrap (historical only, 60-day lookback,
weight 1.0); 1–3 → transition (both sources, weight `max(0.1, 1 − weeks×0.3)`,
lookback `60 − weeks×7` days, hence weights 0.7, 0.4, 0.1 for weeks 1, 2, 3);
≥4 → mature (scheduled only, zero lookback, weight 0). -/
theorem determineLookbackStrategy_cases (weeks : ℕ) :
    (weeks = 0 → determineLookbackStrategy weeks =
      { mode := .bootstrap, scheduledWeeksCount := 0, useScheduledWeeks := false,
        useHistoricalWeeks := true, historicalLookbackDays := 60,
        historicalWeight := 1 }) ∧
    (1 ≤ weeks → weeks ≤ 3 → determineLookbackStrategy weeks =
      { mode := .transition, scheduledWeeksCount := weeks, useScheduledWeeks := true,
        useHistoricalWeeks := true, historicalLookbackDays := 60 - (weeks : ℤ) * 7,
        historicalWeight := max (1/10) (1 - (weeks : ℚ) * (3/10)) }) ∧
    (4 ≤ weeks → determineLookbackStrategy weeks =
      { mode := .mature, scheduledWeeksCount := weeks, useScheduledWeeks := true,
        useHistoricalWeeks := false, historicalLookbackDays := 0,
        historicalWeight := 0 }) ∧
    (determineLookbackStrategy 1).historicalWeight = 7/10 ∧
    (determineLookbackStrategy 2).historicalWeight = 2/5 ∧
    (determineLookbackStrategy 3).historicalWeight = 1/10 := by
  refine ⟨?_, ?_, ?_, ?_, ?_, ?_⟩
  · intro h
    subst h
    rfl
  · intro h1 h3
    unfold determineLookbackStrategy
    rw [if_neg (by omega), if_pos (by omega)]
  · intro h4
    unfold determineLookbackStrategy
    rw [if_neg (by omega), if_neg (by omega)]
  · norm_num [determineLookbackStrategy]
  · norm_num [determineLookbackStrategy]
  · norm_num [determineLookbackStrategy]

/-- Witness for C6: the classification evaluated at 0, 2 and 4 completed
weeks. -/
theorem determineLookbackStrategy_cases_witness :
    determineLookbackStrategy 0 =
      { mode := .bootstrap, scheduledWeeksCount := 0, useScheduledWeeks := false,
        useHistoricalWeeks := true, historicalLookbackDays := 60,
        historicalWeight := 1 } ∧
    determineLookbackStrategy 2 =
      { mode := .transition, scheduledWeeksCount := 2, useScheduledWeeks := true,
        useHistoricalWeeks := true, historicalLookbackDays := 60 - (2 : ℤ) * 7,
        historicalWeight := max (1/10) (1 - (2 : ℚ) * (3/10)) } ∧
    determineLookbackStrategy 4 =
      { mode := .mature, scheduledWeeksCount := 4, useScheduledWeeks := true,
        useHistoricalWeeks := false, historicalLookbackDays := 0,
        historicalWeight := 0 } :=
  ⟨(determineLookbackStrategy_cases 0).1 rfl,
   (determineLookbackStrategy_cases 2).2.1 (by norm_num) (by norm_num),
   (determineLookbackStrategy_cases 4).2.2.1 (by norm_num)⟩

/-! ## C4 -/

lemma calculateConfidence_eq (readings : List ReadingWithWeight)
    (strategy : LookbackStrategy) :
    calculateConfidence readings strategy =
      if readings.length < 3 then 1/2
      else
        min 1 ((7 : ℚ)/10
          + min (1/5)
              (((readings.filter (fun r => decide (r.data_quality = .scheduled_week))).length : ℚ)
                * (1/25))
          + min (1/10)
              (((readings.filter (fun r => decide (r.data_quality = .historical))).length : ℚ)
                * (1/50) * strategy.historicalWeight)
          + (((readings.filter (fun r => decide (r.data_quality = .scheduled_week))).length : ℚ)
              / (readings.length : ℚ)) * (1/10)) := by
  unfold calculateConfidence
  split
  · rfl
  · rename_i h
    have h0 : 0 < readings.length := by omega
    simp only [h0, if_true]

/-- C4: `calculateConfidence` returns exactly 0.5 for fewer than 3 readings,
and otherwise `min(1, 0.7 + min(0.2, scheduledCount × 0.04) +
min(0.1, historicalCount × 0.02 × historicalWeight) +
(scheduledCount / totalCount) × 0.1)`, where the counts tally the
`scheduled_week` and `historical` data-quality tags. -/
theorem calculateConfidence_formula (readings : List ReadingWithWeight)
    (strategy : LookbackStrategy) :
    calculateConfidence readings strategy =
      if readings.length < 3 then 1/2
      else
        min 1 ((7 : ℚ)/10
          + min (1/5)
              ((readings.countP (fun r => decide (r.data_quality = .scheduled_week)) : ℚ)
                * (1/25))
          + min (1/10)
              ((readings.countP (fun r => decide (r.data_quality = .historical)) : ℚ)
                * (1/50) * strategy.historicalWeight)
          + ((readings.countP (fun r => decide (r.data_quality = .scheduled_week)) : ℚ)
              / (readings.length : ℚ)) * (1/10)) := by
  rw [calculateConfidence_eq]
  simp only [List.countP_eq_length_filter]

/-! ## C3 -/

lemma cwmScan_spec (target : ℚ) (l : List ReadingWithWeight) : ∀ (cum : ℚ) (m : ℤ),
    cwmScan target l cum = some m →
    ∃ i : ℕ, ∃ hi : i < l.length,
      m = (l.get ⟨i, hi⟩).minute_of_day ∧
      target ≤ cum + ((l.take (i + 1)).map (fun r => r.weight)).sum ∧
      ∀ j < i, cum + ((l.take (j + 1)).map (fun r => r.weight)).sum < target := by
  induction l with
  | nil =>
    intro cum m h
    simp [cwmScan] at h
  | cons r rest ih =>
    intro cum m h
    simp only [cwmScan] at h
    split at h
    · rename_i hc
      injection h with h
      refine ⟨0, by simp, by simp [h], ?_, ?_⟩
      · simpa using hc
      · intro j hj
        omega
    · rename_i hc
      obtain ⟨i, hi, hm, hge, hlt⟩ := ih (cum + r.weight) m h
      refine ⟨i + 1, by simpa using Nat.succ_lt_succ hi, ?_, ?_, ?_⟩
      · simpa [List.get_cons_succ] using hm
      · simpa [List.take_succ_cons, add_assoc] using hge
      · intro j hj
        cases j with
        | zero =>
          simpa using lt_of_not_le hc
        | succ k =>
          have hk : k < i := by omega
          simpa [List.take_succ_cons, add_assoc] using hlt k hk

lemma cwmScan_total (target : ℚ) (l : List ReadingWithWeight) : ∀ (cum : ℚ),
    l ≠ [] → target ≤ cum + (l.map (fun r => r.weight)).sum →
    ∃ m, cwmScan target l cum = some m := by
  induction l with
  | nil =>
    intro cum h
    cases h rfl
  | cons r rest ih =>
    intro cum _ htot
    simp only [cwmScan]
    split
    · exact ⟨r.minute_of_day, rfl⟩
    · rename_i hc
      by_cases hrest : rest = []
      · subst hrest
        simp only [List.map_cons, List.map_nil, List.sum_cons, List.sum_nil, add_zero] at htot
        exact absurd (by linarith : target ≤ cum + r.weight) hc
      · refine ih (cum + r.weight) hrest ?_
        simp only [List.map_cons, List.sum_cons] at htot
        linarith

/-- C3: `calculateWeightedMedian` returns 0 on the empty list; on the test
readings [(420, 0.4), (480, 1.0), (540, 1.0)] it returns 480; and in general,
for a non-empty list of positive-weight readings, it returns the
`minute_of_day` of the FIRST element, in minute-of-day-sorted order, at which
the cumulative weight reaches half the total weight — so an exact tie at the
halfway point resolves toward the earlier time. -/
theorem calculateWeightedMedian_spec :
    calculateWeightedMedian [] = 0 ∧
    calculateWeightedMedian exMedianReadings = 480 ∧
    (∀ readings : List ReadingWithWeight, readings ≠ [] →
      (∀ r ∈ readings, 0 < r.weight) →
      ∃ i : ℕ, ∃ hi : i < (readings.mergeSort
          (fun a b => decide (a.minute_of_day ≤ b.minute_of_day))).length,
        calculateWeightedMedian readings =
          ((readings.mergeSort (fun a b => decide (a.minute_of_day ≤ b.minute_of_day))).get
            ⟨i, hi⟩).minute_of_day ∧
        (readings.map (fun r => r.weight)).sum / 2 ≤
          (((readings.mergeSort (fun a b => decide (a.minute_of_day ≤ b.minute_of_day))).take
            (i + 1)).map (fun r => r.weight)).sum ∧
        ∀ j < i,
          (((readings.mergeSort (fun a b => decide (a.minute_of_day ≤ b.minute_of_day))).take
            (j + 1)).map (fun r => r.weight)).sum <
            (readings.map (fun r => r.weight)).sum / 2) := by
  refine ⟨rfl, ?_, ?_⟩
  · norm_num [calculateWeightedMedian, List.mergeSort, cwmScan, exMedianReadings,
      exReading420, exReading480, exReading540]
  · intro readings hne hpos
    have hlen : ¬ readings.length = 0 := by
      simpa [List.length_eq_zero] using hne
    have hperm : (readings.mergeSort
        (fun a b => decide (a.minute_of_day ≤ b.minute_of_day))).Perm readings :=
      List.mergeSort_perm _ _
    have hsum : ((readings.mergeSort
        (fun a b => decide (a.minute_of_day ≤ b.minute_of_day))).map
        (fun r => r.weight)).sum = (readings.map (fun r => r.weight)).sum :=
      (hperm.map _).sum_eq
    have hsne : readings.mergeSort
        (fun a b => decide (a.minute_of_day ≤ b.minute_of_day)) ≠ [] := by
      intro h0
      have hl := hperm.length_eq
      rw [h0] at hl
      exact hne (List.eq_nil_of_length_eq_zero hl.symm)
    have hnn : 0 ≤ ((readings.mergeSort
        (fun a b => decide (a.minute_of_day ≤ b.minute_of_day))).map
        (fun r => r.weight)).sum := by
      refine List.sum_nonneg ?_
      intro x hx
      obtain ⟨r, hr, rfl⟩ := List.mem_map.mp hx
      exact le_of_lt (hpos r (hperm.subset hr))
    obtain ⟨m, hm⟩ := cwmScan_total
      (((readings.mergeSort (fun a b => decide (a.minute_of_day ≤ b.minute_of_day))).map
        (fun r => r.weight)).sum / 2) _ 0 hsne (by linarith)
    have hcwm : calculateWeightedMedian readings = m := by
      unfold calculateWeightedMedian
      rw [if_neg hlen]
      simp only [hm]
    obtain ⟨i, hi, hmval, hge, hlt⟩ := cwmScan_spec _ _ 0 m hm
    refine ⟨i, hi, ?_, ?_, ?_⟩
    · rw [hcwm, hmval]
    · rw [← hsum]
      simpa using hge
    · intro j hj
      rw [← hsum]
      simpa using hlt j hj

/-- Witness for C3: the general characterization instantiated at the test
readings. -/
theorem calculateWeightedMedian_spec_witness :
    ∃ i : ℕ, ∃ hi : i < (exMedianReadings.mergeSort
        (fun a b => decide (a.minute_of_day ≤ b.minute_of_day))).length,
      calculateWeightedMedian exMedianReadings =
        ((exMedianReadings.mergeSort (fun a b => decide (a.minute_of_day ≤ b.minute_of_day))).get
          ⟨i, hi⟩).minute_of_day ∧
      (exMedianReadings.map (fun r => r.weight)).sum / 2 ≤
        (((exMedianReadings.mergeSort (fun a b => decide (a.minute_of_day ≤ b.minute_of_day))).take
          (i + 1)).map (fun r => r.weight)).sum ∧
      ∀ j < i,
        (((exMedianReadings.mergeSort (fun a b => decide (a.minute_of_day ≤ b.minute_of_day))).take
          (j + 1)).map (fun r => r.weight)).sum <
          (exMedianReadings.map (fun r => r.weight)).sum / 2 :=
  calculateWeightedMedian_spec.2.2 exMedianReadings (by simp [exMedianReadings])
    (by
      intro r hr
      fin_cases hr <;> norm_num [exReading420, exReading480, exReading540])

/-! ## C5 -/

lemma confidence_body_ge (s h : ℕ) (q : ℚ) (hw : ℚ) (hhw : 0 ≤ hw) (hq : 0 ≤ q) :
    (7 : ℚ)/10 ≤ 7/10 + min (1/5) ((s : ℚ) * (1/25))
      + min (1/10) ((h : ℚ) * (1/50) * hw) + q * (1/10) := by
  have h1 : (0 : ℚ) ≤ min (1/5) ((s : ℚ) * (1/25)) :=
    le_min (by norm_num) (by positivity)
  have h2 : (0 : ℚ) ≤ min (1/10) ((h : ℚ) * (1/50) * hw) :=
    le_min (by norm_num) (mul_nonneg (by positivity) hhw)
  nlinarith

lemma confidence_ratio_mono (s n : ℕ) (hsn : s ≤ n) (hn : 0 < n) :
    (s : ℚ) / (n : ℚ) ≤ ((s : ℚ) + 1) / ((n : ℚ) + 1) := by
  have hs' : (s : ℚ) ≤ (n : ℚ) := by exact_mod_cast hsn
  have hn' : (0 : ℚ) < (n : ℚ) := by exact_mod_cast hn
  rw [div_le_div_iff₀ hn' (by linarith)]
  nlinarith

/-- C5: `calculateConfidence` always lies in [0,1] (for the documented
strategy-weight range `historicalWeight ≥ 0`), and appending one more
`scheduled_week` reading, holding the strategy and the other readings fixed,
never decreases the returned confidence. -/
theorem calculateConfidence_bounds_monotone :
    (∀ (readings : List ReadingWithWeight) (strategy : LookbackStrategy),
      0 ≤ strategy.historicalWeight →
      0 ≤ calculateConfidence readings strategy ∧
        calculateConfidence readings strategy ≤ 1) ∧
    (∀ (readings : List ReadingWithWeight) (strategy : LookbackStrategy)
      (r : ReadingWithWeight),
      0 ≤ strategy.historicalWeight → r.data_quality = .scheduled_week →
      calculateConfidence readings strategy ≤
        calculateConfidence (readings ++ [r]) strategy) := by
  constructor
  · intro readings strategy hhw
    rw [calculateConfidence_eq]
    split
    · norm_num
    · constructor
      · refine le_min (by norm_num) ?_
        have hb := confidence_body_ge
          (readings.filter (fun r => decide (r.data_quality = .scheduled_week))).length
          (readings.filter (fun r => decide (r.data_quality = .historical))).length
          (((readings.filter (fun r => decide (r.data_quality = .scheduled_week))).length : ℚ)
            / (readings.length : ℚ))
          strategy.historicalWeight hhw (by positivity)
        linarith
      · exact min_le_left _ _
  · intro readings strategy r hhw hq
    rw [calculateConfidence_eq, calculateConfidence_eq]
    have hfs : (readings ++ [r]).filter (fun x => decide (x.data_quality = .scheduled_week)) =
        readings.filter (fun x => decide (x.data_quality = .scheduled_week)) ++ [r] := by
      rw [List.filter_append]
      simp [List.filter, hq]
    have hfh : (readings ++ [r]).filter (fun x => decide (x.data_quality = .historical)) =
        readings.filter (fun x => decide (x.data_quality = .historical)) := by
      rw [List.filter_append]
      simp [List.filter, hq]
    rw [hfs, hfh, List.length_append, List.length_append]
    simp only [List.length_cons, List.length_nil, Nat.zero_add]
    by_cases hc1 : readings.length + 1 < 3
    · rw [if_pos (by omega), if_pos hc1]
    · by_cases hc2 : readings.length < 3
      · rw [if_pos hc2, if_neg hc1]
        refine le_min (by norm_num) ?_
        have hb := confidence_body_ge
          ((readings.filter (fun x => decide (x.data_quality = .scheduled_week))).length + 1)
          (readings.filter (fun x => decide (x.data_quality = .historical))).length
          ((((readings.filter (fun x => decide (x.data_quality = .scheduled_week))).length : ℚ) + 1)
            / ((readings.length : ℚ) + 1))
          strategy.historicalWeight hhw (by positivity)
        push_cast
        push_cast at hb
        linarith
      · rw [if_neg hc2, if_neg hc1]
        refine min_le_min le_rfl ?_
        have hsn : (readings.filter (fun x => decide (x.data_quality = .scheduled_week))).length ≤
            readings.length := List.length_filter_le _ _
        have hn : 0 < readings.length := by omega
        have hmin : min ((1:ℚ)/5)
            (((readings.filter (fun x => decide (x.data_quality = .scheduled_week))).length : ℚ)
              * (1/25)) ≤
            min ((1:ℚ)/5)
            ((((readings.filter (fun x => decide (x.data_quality = .scheduled_week))).length : ℚ) + 1)
              * (1/25)) :=
          min_le_min le_rfl (by nlinarith)
        have hratio := confidence_ratio_mono
          (readings.filter (fun x => decide (x.data_quality = .scheduled_week))).length
          readings.length hsn hn
        push_cast
        have hr10 : (((readings.filter (fun x => decide (x.data_quality = .scheduled_week))).length : ℚ)
              / (readings.length : ℚ)) * (1/10) ≤
            ((((readings.filter (fun x => decide (x.data_quality = .scheduled_week))).length : ℚ) + 1)
              / ((readings.length : ℚ) + 1)) * (1/10) := by nlinarith
        push_cast at hmin
        linarith

/-- Witness for C5: bounds at the empty reading list and monotonicity when a
scheduled reading is appended to the weighted-median test readings, for the
week-1 transition strategy. -/
theorem calculateConfidence_bounds_monotone_witness :
    (0 ≤ calculateConfidence exMedianReadings (determineLookbackStrategy 1) ∧
      calculateConfidence exMedianReadings (determineLookbackStrategy 1) ≤ 1) ∧
    calculateConfidence exMedianReadings (determineLookbackStrategy 1) ≤
      calculateConfidence (exMedianReadings ++ [exReading480]) (determineLookbackStrategy 1) :=
  ⟨calculateConfidence_bounds_monotone.1 exMedianReadings (determineLookbackStrategy 1)
      (by norm_num [determineLookbackStrategy]),
   calculateConfidence_bounds_monotone.2 exMedianReadings (determineLookbackStrategy 1)
      exReading480 (by norm_num [determineLookbackStrategy]) (by norm_num [exReading480])⟩

/-! ## C10 -/

lemma sum_gt_of_forall_gt (l : List ℚ) (f : ℚ → ℚ) (k : ℚ) (hne : l ≠ [])
    (h : ∀ x ∈ l, k < f x) : k * (l.length : ℚ) < (l.map f).sum := by
  induction l with
  | nil => cases hne rfl
  | cons a rest ih =>
    simp only [List.map_cons, List.sum_cons, List.length_cons]
    have h1 := h a (List.mem_cons_self _ _)
    by_cases hr : rest = []
    · subst hr
      simp only [List.map_nil, List.sum_nil, List.length_nil, add_zero]
      push_cast
      linarith
    · have h2 := ih hr (fun x hx => h x (List.mem_cons_of_mem _ hx))
      push_cast
      linarith

lemma exists_survivor (l : List ℚ) (c : ℚ) (hne : l ≠ []) :
    ∃ x ∈ l, withinStdDevThreshold |x - c| 2
      (((l.map (fun v => (v - c) ^ 2)).sum) / (l.length : ℚ)) = true := by
  have hSnn : 0 ≤ (l.map (fun v => (v - c) ^ 2)).sum := by
    refine List.sum_nonneg ?_
    intro x hx
    obtain ⟨v, _, rfl⟩ := List.mem_map.mp hx
    positivity
  have hn : 0 < (l.length : ℚ) := by
    have hl : l.length ≠ 0 := by simpa [List.length_eq_zero] using hne
    exact_mod_cast Nat.pos_of_ne_zero hl
  by_cases hvar : ((l.map (fun v => (v - c) ^ 2)).sum) / (l.length : ℚ) = 0
  · obtain ⟨a, rest, rfl⟩ := List.exists_cons_of_ne_nil hne
    refine ⟨a, List.mem_cons_self _ _, ?_⟩
    unfold withinStdDevThreshold
    rw [if_pos hvar]
    have hS0 : ((a :: rest).map (fun v => (v - c) ^ 2)).sum = 0 := by
      rcases div_eq_zero_iff.mp hvar with h0 | h0
      · exact h0
      · exact absurd h0 (ne_of_gt hn)
    have hmem : (a - c) ^ 2 ∈ ((a :: rest).map (fun v => (v - c) ^ 2)) := by
      simp
    have hterm : (a - c) ^ 2 ≤ 0 := by
      have := List.single_le_sum (by
        intro x hx
        obtain ⟨v, _, rfl⟩ := List.mem_map.mp hx
        positivity) _ hmem
      linarith [hS0 ▸ this]
    have hac : a - c = 0 := by nlinarith [sq_nonneg (a - c)]
    rw [decide_eq_true_iff]
    rw [hac]
    norm_num
  · by_contra hall
    push_neg at hall
    have hgt : ∀ x ∈ l, 4 * (((l.map (fun v => (v - c) ^ 2)).sum) / (l.length : ℚ)) <
        (x - c) ^ 2 := by
      intro x hx
      have hx2 := hall x hx
      unfold withinStdDevThreshold at hx2
      rw [if_neg hvar] at hx2
      have hx3 : ¬ (|x - c| ^ 2 ≤ 2 ^ 2 *
          (((l.map (fun v => (v - c) ^ 2)).sum) / (l.length : ℚ))) := by
        simpa using hx2
      rw [sq_abs] at hx3
      have := lt_of_not_le hx3
      linarith
    have hlt := sum_gt_of_forall_gt l (fun x => (x - c) ^ 2)
      (4 * (((l.map (fun v => (v - c) ^ 2)).sum) / (l.length : ℚ))) hne hgt
    have hcancel : (4 * (((l.map (fun v => (v - c) ^ 2)).sum) / (l.length : ℚ)))
        * (l.length : ℚ) = 4 * ((l.map (fun v => (v - c) ^ 2)).sum) := by
      field_simp
    rw [hcancel] at hlt
    linarith

/-- C10: on every input, `detectStatisticalOutliers` and
`filterOutliersByWeight` (threshold 2) return a sublist of the input; inputs
of fewer than 3 elements pass through unchanged; and a non-empty input never
becomes empty, because at least one element always lies within 2 standard
deviations of the median (the variance being the mean squared deviation from
the median), and the `stdDev || 1` guard keeps everything when the deviation
is degenerate. -/
theorem outlier_filters_nonempty :
    (∀ values : List ℚ,
      (detectStatisticalOutliers values 2).Sublist values ∧
      (values.length < 3 → detectStatisticalOutliers values 2 = values) ∧
      (values ≠ [] → detectStatisticalOutliers values 2 ≠ [])) ∧
    (∀ readings : List ReadingWithWeight,
      (filterOutliersByWeight readings 2).Sublist readings ∧
      (readings.length < 3 → filterOutliersByWeight readings 2 = readings) ∧
      (readings ≠ [] → filterOutliersByWeight readings 2 ≠ [])) := by
  constructor
  · intro values
    refine ⟨?_, ?_, ?_⟩
    · unfold detectStatisticalOutliers
      split
      · exact List.Sublist.refl _
      · exact List.filter_sublist _
    · intro h
      unfold detectStatisticalOutliers
      rw [if_pos h]
    · intro hne
      unfold detectStatisticalOutliers
      split
      · exact hne
      · obtain ⟨x, hx, hsurv⟩ := exists_survivor values (listMedian values) hne
        exact List.ne_nil_of_mem (List.mem_filter.mpr ⟨hx, hsurv⟩)
  · intro readings
    refine ⟨?_, ?_, ?_⟩
    · unfold filterOutliersByWeight
      split
      · exact List.Sublist.refl _
      · exact List.filter_sublist _
    · intro h
      unfold filterOutliersByWeight
      rw [if_pos h]
    · intro hne
      unfold filterOutliersByWeight
      split
      · exact hne
      · have hvne : readings.map (fun r => (r.minute_of_day : ℚ)) ≠ [] := by
          simpa using hne
        obtain ⟨x, hx, hsurv⟩ := exists_survivor (readings.map (fun r => (r.minute_of_day : ℚ)))
          (listMedian (readings.map (fun r => (r.minute_of_day : ℚ)))) hvne
        obtain ⟨r, hr, rfl⟩ := List.mem_map.mp hx
        exact List.ne_nil_of_mem (List.mem_filter.mpr ⟨hr, hsurv⟩)

/-- Witness for C10: the documented outlier vector stays non-empty after
filtering, and a 2-element weighted list passes through unchanged. -/
theorem outlier_filters_nonempty_witness :
    detectStatisticalOutliers [475, 480, 485, 490, 478, 482, 1380] 2 ≠ [] ∧
    filterOutliersByWeight [exReading420, exReading480] 2 = [exReading420, exReading480] :=
  ⟨(outlier_filters_nonempty.1 [475, 480, 485, 490, 478, 482, 1380]).2.2 (by simp),
   (outlier_filters_nonempty.2 [exReading420, exReading480]).2.1 (by norm_num)⟩

/-! ## C7 -/

lemma timeToMinutes_0700 : timeToMinutes "07:00:00" = 420 := by decide

lemma timeToMinutes_0800 : timeToMinutes "08:00:00" = 480 := by decide

lemma timeToMinutes_0830 : timeToMinutes "08:30:00" = 510 := by decide

/-- C7: after window filtering, outlier removal and the fallback, if at least 3
readings remain then the candidate's minute is `weightedMedian + 5` with
source `history` and confidence from `calculateConfidence`, and this minute is
not clamped into the window (the concrete conjunct exhibits a history
candidate past its window's end); otherwise the default is the midpoint for
`fasting` and `end − 30` for post-meal types, clamped into `[start, end]` (so
a `default_window` candidate always lies within its window), with confidence
exactly 0.5. -/
theorem generateScheduleForWindow_decision :
    (∀ (toLocal : ℤ → LocalParts) (store : List StoredReading) (now : ℤ)
      (window : MealWindow) (allReadings : List ReadingWithWeight)
      (strategy : LookbackStrategy) (mondayBase : ℤ),
      3 ≤ (windowFinalReadings toLocal store now window allReadings strategy).length →
      (generateScheduleForWindow toLocal store now window allReadings strategy
          mondayBase).minute_of_day =
        calculateWeightedMedian
          (windowFinalReadings toLocal store now window allReadings strategy) + 5 ∧
      (generateScheduleForWindow toLocal store now window allReadings strategy
          mondayBase).source = .history ∧
      (generateScheduleForWindow toLocal store now window allReadings strategy
          mondayBase).confidence =
        calculateConfidence
          (windowFinalReadings toLocal store now window allReadings strategy) strategy) ∧
    (∀ (toLocal : ℤ → LocalParts) (store : List StoredReading) (now : ℤ)
      (window : MealWindow) (allReadings : List ReadingWithWeight)
      (strategy : LookbackStrategy) (mondayBase : ℤ),
      (windowFinalReadings toLocal store now window allReadings strategy).length < 3 →
      (generateScheduleForWindow toLocal store now window allReadings strategy
          mondayBase).source = .default_window ∧
      (generateScheduleForWindow toLocal store now window allReadings strategy
          mondayBase).confidence = 1/2 ∧
      (generateScheduleForWindow toLocal store now window allReadings strategy
          mondayBase).minute_of_day =
        max (timeToMinutes window.time_start) (min (timeToMinutes window.time_end)
          (if window.measurement_type = "fasting"
            then jsRound (((timeToMinutes window.time_start
              + timeToMinutes window.time_end : ℤ) : ℚ) / 2)
            else timeToMinutes window.time_end - 30)) ∧
      (timeToMinutes window.time_start ≤ timeToMinutes window.time_end →
        timeToMinutes window.time_start ≤
          (generateScheduleForWindow toLocal store now window allReadings strategy
            mondayBase).minute_of_day ∧
        (generateScheduleForWindow toLocal store now window allReadings strategy
          mondayBase).minute_of_day ≤ timeToMinutes window.time_end)) ∧
    ((generateScheduleForWindow warsawWinterLocal [] 0 exWindowEdge exEdgeReadings
        (determineLookbackStrategy 0) 0).source = .history ∧
      timeToMinutes exWindowEdge.time_end <
        (generateScheduleForWindow warsawWinterLocal [] 0 exWindowEdge exEdgeReadings
          (determineLookbackStrategy 0) 0).minute_of_day) := by
  refine ⟨?_, ?_, ?_⟩
  · intro toLocal store now window allReadings strategy mondayBase hlen
    simp only [windowFinalReadings] at hlen ⊢
    simp only [generateScheduleForWindow]
    rw [if_pos hlen]
    exact ⟨rfl, rfl, rfl⟩
  · intro toLocal store now window allReadings strategy mondayBase hlen
    simp only [windowFinalReadings] at hlen ⊢
    simp only [generateScheduleForWindow]
    rw [if_neg (not_le.mpr hlen)]
    refine ⟨rfl, rfl, rfl, ?_⟩
    intro hse
    exact ⟨le_max_left _ _, max_le hse (min_le_left _ _)⟩
  · constructor
    · norm_num [generateScheduleForWindow, applyAdaptiveFallback, filterOutliersByWeight,
        listMedian, withinStdDevThreshold, calculateWeightedMedian, cwmScan,
        calculateConfidence, determineLookbackStrategy, List.mergeSort, exWindowEdge,
        exEdgeReadings, timeToMinutes_0700, timeToMinutes_0800]
    · norm_num [generateScheduleForWindow, applyAdaptiveFallback, filterOutliersByWeight,
        listMedian, withinStdDevThreshold, calculateWeightedMedian, cwmScan,
        calculateConfidence, determineLookbackStrategy, List.mergeSort, exWindowEdge,
        exEdgeReadings, timeToMinutes_0700, timeToMinutes_0800]

/-- Witness for C7: the history branch on the edge-clustered readings, and the
default branch on an empty reading set, both for the Monday 07:00–08:00
window. -/
theorem generateScheduleForWindow_decision_witness :
    ((generateScheduleForWindow warsawWinterLocal [] 0 exWindowEdge exEdgeReadings
        (determineLookbackStrategy 0) 0).minute_of_day =
      calculateWeightedMedian (windowFinalReadings warsawWinterLocal [] 0 exWindowEdge
        exEdgeReadings (determineLookbackStrategy 0)) + 5 ∧
      (generateScheduleForWindow warsawWinterLocal [] 0 exWindowEdge exEdgeReadings
        (determineLookbackStrategy 0) 0).source = .history ∧
      (generateScheduleForWindow warsawWinterLocal [] 0 exWindowEdge exEdgeReadings
        (determineLookbackStrategy 0) 0).confidence =
      calculateConfidence (windowFinalReadings warsawWinterLocal [] 0 exWindowEdge
        exEdgeReadings (determineLookbackStrategy 0)) (determineLookbackStrategy 0)) ∧
    ((generateScheduleForWindow warsawWinterLocal [] 0 exWindowEdge []
        (determineLookbackStrategy 0) 0).source = .default_window ∧
      (generateScheduleForWindow warsawWinterLocal [] 0 exWindowEdge []
        (determineLookbackStrategy 0) 0).confidence = 1/2 ∧
      (generateScheduleForWindow warsawWinterLocal [] 0 exWindowEdge []
        (determineLookbackStrategy 0) 0).minute_of_day =
        max (timeToMinutes exWindowEdge.time_start) (min (timeToMinutes exWindowEdge.time_end)
          (if exWindowEdge.measurement_type = "fasting"
            then jsRound (((timeToMinutes exWindowEdge.time_start
              + timeToMinutes exWindowEdge.time_end : ℤ) : ℚ) / 2)
            else timeToMinutes exWindowEdge.time_end - 30)) ∧
      (timeToMinutes exWindowEdge.time_start ≤ timeToMinutes exWindowEdge.time_end →
        timeToMinutes exWindowEdge.time_start ≤
          (generateScheduleForWindow warsawWinterLocal [] 0 exWindowEdge []
            (determineLookbackStrategy 0) 0).minute_of_day ∧
        (generateScheduleForWindow warsawWinterLocal [] 0 exWindowEdge []
          (determineLookbackStrategy 0) 0).minute_of_day ≤
          timeToMinutes exWindowEdge.time_end)) :=
  ⟨generateScheduleForWindow_decision.1 warsawWinterLocal [] 0 exWindowEdge exEdgeReadings
      (determineLookbackStrategy 0) 0
      (by norm_num [windowFinalReadings, applyAdaptiveFallback, filterOutliersByWeight,
        listMedian, withinStdDevThreshold, determineLookbackStrategy, List.mergeSort,
        exWindowEdge, exEdgeReadings, timeToMinutes_0700, timeToMinutes_0800]),
   generateScheduleForWindow_decision.2.1 warsawWinterLocal [] 0 exWindowEdge []
      (determineLookbackStrategy 0) 0
      (by norm_num [windowFinalReadings, applyAdaptiveFallback, filterOutliersByWeight,
        listMedian, withinStdDevThreshold, determineLookbackStrategy, exWindowEdge])⟩

/-! ## C8 -/

/-- C8 is false as stated: the fallback query of `applyAdaptiveFallback`
filters only on user, measurement type and the 30-day bound — it does not
exclude scheduled-prompt rows — so the appended set is not the organic-only
set the claim describes.  With a single in-range `scheduled_prompt` row of the
window's type, the source appends one reading while the organic-only set is
empty. -/
theorem applyAdaptiveFallback_organic_false :
    applyAdaptiveFallback warsawWinterLocal fallbackStore 0 []
        (determineLookbackStrategy 4) "u1" fallbackWindow ≠
      [] ++ (organicFallbackRows fallbackStore "u1" 0 fallbackWindow.measurement_type).map
        (toReadingWithWeight warsawWinterLocal "u1" .historical (1/2)) := by
  norm_num [applyAdaptiveFallback, organicFallbackRows, determineLookbackStrategy,
    fallbackStore, fallbackWindow, toReadingWithWeight, warsawWinterLocal, fixedOffsetLocal,
    msPerDay, msPerMinute]

/-- C8 (amended): `applyAdaptiveFallback` changes nothing unless the strategy
mode is `mature` and the reading count is below 3; in that case it preserves
the incoming readings as a prefix and appends exactly this user's stored rows
of the window's measurement type from the 30-day recency window — regardless
of `reading_context`, so scheduled-prompt rows are included — each tagged
`historical` with weight exactly 0.5. -/
theorem applyAdaptiveFallback_spec (toLocal : ℤ → LocalParts) (store : List StoredReading)
    (now : ℤ) (readings : List ReadingWithWeight) (strategy : LookbackStrategy)
    (userId : String) (window : MealWindow) :
    (¬ (strategy.mode = Mode.mature ∧ readings.length < 3) →
      applyAdaptiveFallback toLocal store now readings strategy userId window = readings) ∧
    (strategy.mode = Mode.mature → readings.length < 3 →
      applyAdaptiveFallback toLocal store now readings strategy userId window =
        readings ++ (store.filter (fun r =>
          decide (r.user_id = userId) &&
          decide (r.measurement_type = window.measurement_type) &&
          decide (now - 30 * msPerDay ≤ r.measured_at))).map
            (toReadingWithWeight toLocal userId .historical (1/2)) ∧
      ∀ x ∈ (applyAdaptiveFallback toLocal store now readings strategy userId
          window).drop readings.length,
        x.data_quality = .historical ∧ x.weight = 1/2) := by
  constructor
  · intro h
    unfold applyAdaptiveFallback
    rw [if_neg h]
  · intro h1 h2
    have hc : strategy.mode = Mode.mature ∧ readings.length < 3 := ⟨h1, h2⟩
    constructor
    · unfold applyAdaptiveFallback
      rw [if_pos hc]
    · intro x hx
      unfold applyAdaptiveFallback at hx
      rw [if_pos hc, List.drop_left] at hx
      obtain ⟨r, _, rfl⟩ := List.mem_map.mp hx
      exact ⟨rfl, rfl⟩

/-- Witness for C8 (amended): the fallback leaves a transition-mode user
untouched and, for a mature user with no readings, appends exactly the
filtered rows with quality `historical` and weight 0.5. -/
theorem applyAdaptiveFallback_spec_witness :
    applyAdaptiveFallback warsawWinterLocal fallbackStore 0 []
        (determineLookbackStrategy 1) "u1" fallbackWindow = [] ∧
    applyAdaptiveFallback warsawWinterLocal fallbackStore 0 []
        (determineLookbackStrategy 4) "u1" fallbackWindow =
      [] ++ (fallbackStore.filter (fun r =>
        decide (r.user_id = "u1") &&
        decide (r.measurement_type = fallbackWindow.measurement_type) &&
        decide ((0 : ℤ) - 30 * msPerDay ≤ r.measured_at))).map
          (toReadingWithWeight warsawWinterLocal "u1" .historical (1/2)) :=
  ⟨(applyAdaptiveFallback_spec warsawWinterLocal fallbackStore 0 []
      (determineLookbackStrategy 1) "u1" fallbackWindow).1
      (by simp [determineLookbackStrategy]),
   ((applyAdaptiveFallback_spec warsawWinterLocal fallbackStore 0 []
      (determineLookbackStrategy 4) "u1" fallbackWindow).2
      (by norm_num [determineLookbackStrategy]) (by norm_num)).1⟩

/-! ## C9 -/

lemma manual_ne_scheduled_prompt : "manual" ≠ "scheduled_prompt" := by decide

set_option maxHeartbeats 4000000 in
/-- C9 is false as stated: the reading-fetch stage anchors its lookback window
at the wall clock (`new Date()` minus the lookback days), not at the target
Monday.  Two runs on the identical store, identical windows, identical
scheduled-weeks count and identical target-week anchor, started 30 days apart,
fetch different reading sets (the stored readings are 40 days old at the first
run but 70 days old at the second, beyond the 60-day bootstrap lookback) and
emit different schedules: minute 484 (`history`) versus minute 465
(`default_window` midpoint). -/
theorem runPipelineForUser_wallclock_false :
    (runPipelineForUser warsawWinterLocal pipelineStore "u1" (100 * msPerDay) 0
        [pipelineWindow] 0 90).map (fun c => c.minute_of_day) = [484] ∧
    (runPipelineForUser warsawWinterLocal pipelineStore "u1" (130 * msPerDay) 0
        [pipelineWindow] 0 90).map (fun c => c.minute_of_day) = [465] ∧
    runPipelineForUser warsawWinterLocal pipelineStore "u1" (100 * msPerDay) 0
        [pipelineWindow] 0 90 ≠
      runPipelineForUser warsawWinterLocal pipelineStore "u1" (130 * msPerDay) 0
        [pipelineWindow] 0 90 := by
  have h1 : (runPipelineForUser warsawWinterLocal pipelineStore "u1" (100 * msPerDay) 0
      [pipelineWindow] 0 90).map (fun c => c.minute_of_day) = [484] := by
    norm_num [runPipelineForUser, determineLookbackStrategy, fetchReadingsWithContext,
      fetchReadings, toReadingWithWeight, warsawWinterLocal, fixedOffsetLocal,
      generateScheduleForWindow, applyAdaptiveFallback, filterOutliersByWeight, listMedian,
      withinStdDevThreshold, calculateWeightedMedian, cwmScan, calculateConfidence,
      enforceSpacingByConfidence, spacingLoop_cons, spacingLoop_nil, List.mergeSort,
      timeToMinutes_0700, timeToMinutes_0830, jsRound, msPerDay, msPerMinute, diffMinutes,
      pipelineStore, pipelineWindow, List.filter_cons, List.filter_nil,
      manual_ne_scheduled_prompt, List.cons_ne_nil]
  have h2 : (runPipelineForUser warsawWinterLocal pipelineStore "u1" (130 * msPerDay) 0
      [pipelineWindow] 0 90).map (fun c => c.minute_of_day) = [465] := by
    norm_num [runPipelineForUser, determineLookbackStrategy, fetchReadingsWithContext,
      fetchReadings, toReadingWithWeight, warsawWinterLocal, fixedOffsetLocal,
      generateScheduleForWindow, applyAdaptiveFallback, filterOutliersByWeight, listMedian,
      withinStdDevThreshold, calculateWeightedMedian, cwmScan, calculateConfidence,
      enforceSpacingByConfidence, spacingLoop_cons, spacingLoop_nil, List.mergeSort,
      timeToMinutes_0700, timeToMinutes_0830, jsRound, msPerDay, msPerMinute, diffMinutes,
      pipelineStore, pipelineWindow, List.filter_cons, List.filter_nil,
      manual_ne_scheduled_prompt, List.cons_ne_nil]
  refine ⟨h1, h2, ?_⟩
  intro heq
  rw [heq] at h1
  exact absurd (h1.symm.trans h2) (by decide)

/-- C9 (amended): the per-user pipeline is deterministic given its full input
— stored readings, local-time conversion, user, scheduled-weeks count, meal
windows, target-week anchor, spacing, AND the wall-clock instant at which the
run starts (which anchors the fetch lookback): two runs with all of these
identical produce identical output schedules. -/
theorem runPipelineForUser_deterministic
    (toLocal₁ toLocal₂ : ℤ → LocalParts) (store₁ store₂ : List StoredReading)
    (userId₁ userId₂ : String) (now₁ now₂ : ℤ) (weeks₁ weeks₂ : ℕ)
    (windows₁ windows₂ : List MealWindow) (base₁ base₂ : ℤ) (m₁ m₂ : ℚ)
    (h : toLocal₁ = toLocal₂ ∧ store₁ = store₂ ∧ userId₁ = userId₂ ∧ now₁ = now₂ ∧
      weeks₁ = weeks₂ ∧ windows₁ = windows₂ ∧ base₁ = base₂ ∧ m₁ = m₂) :
    runPipelineForUser toLocal₁ store₁ userId₁ now₁ weeks₁ windows₁ base₁ m₁ =
      runPipelineForUser toLocal₂ store₂ userId₂ now₂ weeks₂ windows₂ base₂ m₂ := by
  obtain ⟨rfl, rfl, rfl, rfl, rfl, rfl, rfl, rfl⟩ := h
  rfl

/-- Witness for C9 (amended): two runs with identical inputs, including the
wall clock, coincide. -/
theorem runPipelineForUser_deterministic_witness :
    runPipelineForUser warsawWinterLocal pipelineStore "u1" (100 * msPerDay) 0
        [pipelineWindow] 0 90 =
      runPipelineForUser warsawWinterLocal pipelineStore "u1" (100 * msPerDay) 0
        [pipelineWindow] 0 90 :=
  runPipelineForUser_deterministic warsawWinterLocal warsawWinterLocal pipelineStore
    pipelineStore "u1" "u1" (100 * msPerDay) (100 * msPerDay) 0 0 [pipelineWindow]
    [pipelineWindow] 0 0 90 90 ⟨rfl, rfl, rfl, rfl, rfl, rfl, rfl, rfl⟩

end GDTracker
